import Mathlib

/-!
Verification of the EduAccess Mapper analysis core.

The development shallowly embeds the analysis functions of
`edu_access_mapper.py` (`analyze_school_distribution`, `layer_to_geopandas`)
and `utils/school_distribution_analysis.py` (`calculate_nearest_neighbor_distance`,
`calculate_coverage`, `calculate_spatial_dispersion`).

Conventions of the embedding:
* coordinates and population figures are rationals (`ℚ`); Euclidean lengths,
  which the Python code obtains through floating-point square roots, are reals;
* the point-in-polygon test supplied by the geometry library (`within`) is
  abstracted as a boolean field of a district, so a district is its name, its
  population and its containment predicate;
* the proximity-diagram builder (`scipy.spatial.Voronoi`) is external: its
  output is a record of `ridge_points` (index pairs into the input
  coordinates) and `ridge_vertices` (vertex index lists in which `-1` marks a
  vertex at infinity), and a failed construction (the library raising) is the
  `none` case of an optional diagram;
* pandas dictionaries (`set_index(...).to_dict()`) are association lists with
  first-occurrence key position and last-occurrence value.
-/

namespace EduAccess

/-- A facility point: an (x, y) coordinate. -/
abbrev Pt := ℚ × ℚ

/-- A district feature: name, total population, and the polygon abstracted as
its point-containment (`within`) predicate. -/
structure District where
  name : String
  pop : ℚ
  contains : Pt → Bool

/-! ### Capacity and deficit calculator (`edu_access_mapper.py`, lines 87-94) -/

/-- Line 87: the constant `max_students_per_school = 2000`. -/
def max_students_per_school : ℚ := 2000

/-- Line 89: `required_schools = ceil(TOTAL_POP / max_students_per_school)`
cast to an integer. -/
def required_schools (pop : ℚ) : ℤ :=
  ⌈pop / max_students_per_school⌉

/-- Line 93: the raw difference `required_schools - current_schools`. -/
def additional_raw (required current : ℚ) : ℚ :=
  required - current

/-- Line 94: the raw difference clamped by `max(x, 0)`. -/
def additional_schools_needed (required current : ℚ) : ℚ :=
  max (additional_raw required current) 0

/-! ### Spatial join and grouping (`edu_access_mapper.py`, lines 82-84, 92) -/

/-- Line 83: `gpd.sjoin(schools_gdf, cities_gdf, how='left', predicate='within')`.
Each facility yields one row per containing district; a facility contained in
no district yields a single row whose district name is `none` (NaN). -/
def sjoin_within (schools : List Pt) (districts : List District) :
    List (Pt × Option String) :=
  schools.flatMap (fun s =>
    let hits := districts.filter (fun d => d.contains s)
    if hits.isEmpty then [(s, none)] else hits.map (fun d => (s, some d.name)))

/-- The non-NaN district names of the join rows; `groupby` aggregates these. -/
def joined_names (schools : List Pt) (districts : List District) : List String :=
  (sjoin_within schools districts).filterMap (fun r => r.2)

/-- The size of one `groupby('DIST_NAME')` group. -/
def group_size (schools : List Pt) (districts : List District) (n : String) : ℕ :=
  (joined_names schools districts).count n

/-- Line 84 and line 98: `schools_with_cities.groupby('DIST_NAME').size()`,
exposed in the result as a dictionary. Its keys are exactly the district
names occurring in the join (NaN rows dropped by `groupby`). -/
def schools_per_city (schools : List Pt) (districts : List District) :
    List (String × ℕ) :=
  (joined_names schools districts).dedup.map
    (fun n => (n, group_size schools districts n))

/-- Line 92: `cities_gdf['DIST_NAME'].map(schools_per_city).fillna(0)` — the
group size of the district's name, zero when the name is absent from the
grouping. -/
def current_schools (schools : List Pt) (districts : List District)
    (n : String) : ℚ :=
  (group_size schools districts n : ℚ)

/-- Facilities lying in no district polygon. -/
def unassigned_count (schools : List Pt) (districts : List District) : ℕ :=
  (schools.filter (fun s => districts.all (fun d => ! d.contains s))).length

/-! ### Result dictionaries (`edu_access_mapper.py`, lines 96-101) -/

/-- The keys of an association list. -/
def keys {α : Type} (d : List (String × α)) : List String :=
  d.map Prod.fst

/-- One Python-dictionary insertion: an existing key keeps its position and
receives the new value, a new key is appended. -/
def dictInsert {α : Type} (d : List (String × α)) (k : String) (v : α) :
    List (String × α) :=
  if (keys d).contains k then
    d.map (fun q => if q.1 = k then (k, v) else q)
  else
    d ++ [(k, v)]

/-- The dictionary builder `set_index('DIST_NAME').to_dict()[...]`: building a Python dictionary from
the rows in order. -/
def to_dict {α : Type} (l : List (String × α)) : List (String × α) :=
  l.foldl (fun d p => dictInsert d p.1 p.2) []

/-- Lines 89 and 99: the `required_schools` output map, one row per district
of the input collection. -/
def required_schools_map (districts : List District) : List (String × ℤ) :=
  to_dict (districts.map (fun d => (d.name, required_schools d.pop)))

/-- Lines 92-94 and 100: the `additional_schools_needed` output map, one row
per district of the input collection. -/
def additional_schools_needed_map (schools : List Pt)
    (districts : List District) : List (String × ℚ) :=
  to_dict (districts.map (fun d =>
    (d.name, additional_schools_needed (required_schools d.pop : ℚ)
      (current_schools schools districts d.name))))

/-! ### Coverage estimator (`utils/school_distribution_analysis.py`, lines 65-73) -/

/-- Fold-based minimum of a rational list (numpy column min for a non-empty
column). -/
def col_min (l : List ℚ) : ℚ := l.foldl min (l.headD 0)

/-- Fold-based maximum of a rational list. -/
def col_max (l : List ℚ) : ℚ := l.foldl max (l.headD 0)

/-- The bounds array `schools_geometry.total_bounds`, i.e. `(minx, miny, maxx, maxy)` of
the point set. -/
def total_bounds (pts : List Pt) : ℚ × ℚ × ℚ × ℚ :=
  (col_min (pts.map Prod.fst), col_min (pts.map Prod.snd),
   col_max (pts.map Prod.fst), col_max (pts.map Prod.snd))

/-- The denominator `total_bounds.prod()`: the product of the four entries of the bounds
array, exactly as numpy's `prod` multiplies them. -/
def bounds_prod (b : ℚ × ℚ × ℚ × ℚ) : ℚ :=
  b.1 * b.2.1 * b.2.2.1 * b.2.2.2

/-- Line 72: `total_coverage.area / schools_geometry.total_bounds.prod() * 100`.
The union area of the buffered disks is a parameter (it comes from the
geometry library); the denominator is the code's `total_bounds.prod()`. -/
def coverage_percentage (union_area : ℚ) (pts : List Pt) : ℚ :=
  union_area / bounds_prod (total_bounds pts) * 100

/-- Modelled from the spec: the area of the bounding rectangle of the point
set, `(maxx - minx) * (maxy - miny)` — the denominator the specification
prescribes for the coverage percentage. -/
def bounding_rectangle_area (pts : List Pt) : ℚ :=
  let b := total_bounds pts
  (b.2.2.1 - b.1) * (b.2.2.2 - b.2.1)

/-- Modelled from the spec: percentage of the bounding rectangle's area, with
the degenerate (zero-area) rectangle reported as the sentinel `none` rather
than divided by. -/
def spec_coverage_percentage (union_area : ℚ) (pts : List Pt) : Option ℚ :=
  if bounding_rectangle_area pts = 0 then none
  else some (union_area / bounding_rectangle_area pts * 100)

/-! ### Proximity statistics (`utils/school_distribution_analysis.py`, lines 42-57) -/

/-- The output of the external proximity-diagram builder (`scipy.spatial.Voronoi`):
`ridge_points` pairs indices of the input coordinates whose regions share a
ridge; `ridge_vertices` lists, per ridge, the indices of its diagram vertices,
with `-1` standing for the vertex at infinity of an unbounded ridge. -/
structure Voronoi where
  ridge_points : List (ℤ × ℤ)
  ridge_vertices : List (List ℤ)

/-- Line 50: the comprehension filter `all(0 <= r < len(coords) for r in ridge)`,
applied to a `ridge_points` entry. -/
def ridge_in_range (n : ℕ) (r : ℤ × ℤ) : Bool :=
  (0 ≤ r.1 && r.1 < (n : ℤ)) && (0 ≤ r.2 && r.2 < (n : ℤ))

/-- Euclidean length between two rational points (`np.linalg.norm` of the
coordinate difference). -/
noncomputable def norm2 (p q : Pt) : ℝ :=
  Real.sqrt (((p.1 : ℝ) - (q.1 : ℝ)) ^ 2 + ((p.2 : ℝ) - (q.2 : ℝ)) ^ 2)

/-- Lines 48-51: `ridge_lengths`, the distances between the two input points of
every `ridge_points` entry passing the bound check of line 50. -/
noncomputable def ridge_lengths (coords : List Pt) (vor : Voronoi) : List ℝ :=
  (vor.ridge_points.filter (ridge_in_range coords.length)).map
    (fun r => norm2 (coords.getD r.1.toNat (0, 0)) (coords.getD r.2.toNat (0, 0)))

/-- Modelled from the spec: the distances of only those ridges all of whose
diagram vertices are finite (no `-1` entry), i.e. with the unbounded ridges of
convex-hull points excluded. -/
noncomputable def finite_ridge_lengths (coords : List Pt) (vor : Voronoi) : List ℝ :=
  ((vor.ridge_points.zip vor.ridge_vertices).filter
      (fun rv => rv.2.all (fun v => 0 ≤ v))).map
    (fun rv => norm2 (coords.getD rv.1.1.toNat (0, 0)) (coords.getD rv.1.2.toNat (0, 0)))

/-- The observable outcome of `calculate_nearest_neighbor_distance`:
the untyped error of the diagram library propagating, the NaN statistics of
`np.mean` over an empty list, ordinary statistics, or the typed
`InsufficientDataError` the specification prescribes (which would have to be
raised by the module itself). -/
inductive ProxResult where
  | library_error
  | nan_stats
  | stats (mean lo hi : ℝ)
  | insufficient_data_error

/-- The mean `np.mean`: sum divided by length. -/
noncomputable def list_mean (l : List ℝ) : ℝ := l.sum / l.length

/-- The minimum `np.min` of a non-empty list. -/
noncomputable def list_min (l : List ℝ) : ℝ := l.foldl min (l.headD 0)

/-- The maximum `np.max` of a non-empty list. -/
noncomputable def list_max (l : List ℝ) : ℝ := l.foldl max (l.headD 0)

/-- Lines 42-57: the whole of `calculate_nearest_neighbor_distance`. The
diagram is `none` when `Voronoi(coords)` raises (fewer than four points, or
all points collinear); otherwise the ridge lengths of lines 48-51 feed the
three statistics. An empty length list makes `np.mean` return NaN. The
function has no branch producing `insufficient_data_error`. -/
noncomputable def calculate_nearest_neighbor_distance (coords : List Pt)
    (vor : Option Voronoi) : ProxResult :=
  match vor with
  | none => .library_error
  | some v =>
    let ls := ridge_lengths coords v
    if ls.isEmpty then .nan_stats
    else .stats (list_mean ls) (list_min ls) (list_max ls)

/-- The four corners of the side-10 square used by the spec's own test
property. -/
def square_coords : List Pt := [(0, 0), (10, 0), (10, 10), (0, 10)]

/-- The proximity diagram of the four corners of the side-10 square: the
single diagram vertex is the centre (5,5), each adjacent pair of corners
shares one ridge, and each of those four ridges runs from the centre vertex to
infinity, so each `ridge_vertices` entry is `[-1, 0]`. -/
def square_vor : Voronoi :=
  { ridge_points := [(0, 1), (1, 2), (2, 3), (3, 0)],
    ridge_vertices := [[-1, 0], [-1, 0], [-1, 0], [-1, 0]] }

/-! ### Dispersion estimator (`utils/school_distribution_analysis.py`, lines 78-98) -/

/-- Euclidean distance between two real points (`shapely`'s point distance). -/
noncomputable def rdist (p q : ℝ × ℝ) : ℝ :=
  Real.sqrt ((p.1 - q.1) ^ 2 + (p.2 - q.2) ^ 2)

/-- Lines 81-84: the `Point(centroids.x.mean(), centroids.y.mean())` centre.
For point facilities the centroid of a facility is the point itself. -/
noncomputable def centroid_of_centroids (pts : List (ℝ × ℝ)) : ℝ × ℝ :=
  ((pts.map Prod.fst).sum / pts.length, (pts.map Prod.snd).sum / pts.length)

/-- Lines 86-89: the distance of every centroid to the centre. -/
noncomputable def distances_from_center (pts : List (ℝ × ℝ)) : List ℝ :=
  pts.map (fun c => rdist c (centroid_of_centroids pts))

/-- The population standard deviation `np.std`: the square root of the mean
squared deviation from the mean. -/
noncomputable def list_std (l : List ℝ) : ℝ :=
  Real.sqrt (list_mean (l.map (fun x => (x - list_mean l) ^ 2)))

/-- Lines 78-94: `calculate_spatial_dispersion`, returning the centre, the
mean distance from the centre and the population standard deviation of the
distances. -/
noncomputable def calculate_spatial_dispersion (pts : List (ℝ × ℝ)) :
    (ℝ × ℝ) × ℝ × ℝ :=
  (centroid_of_centroids pts,
   list_mean (distances_from_center pts),
   list_std (distances_from_center pts))

/-! ### The analysis entry point and its frame (`edu_access_mapper.py`, lines 72-107) -/

/-- An in-memory feature frame: a coordinate reference system tag and rows. -/
structure Frame (α : Type) where
  crs : ℕ
  rows : List α

/-- A caller-supplied map layer. Its `source` is the content of the backing
data file. -/
structure Layer (α : Type) where
  source : Frame α

/-- Lines 105-107: `layer_to_geopandas` re-reads the layer's source file with
`gpd.read_file`, producing a fresh frame holding the file's content; the
returned frame shares no storage with the layer object. -/
def layer_to_geopandas {α : Type} (l : Layer α) : Frame α :=
  l.source

/-- The analysis result record of lines 96-101. -/
structure AnalysisResult where
  total_schools : ℕ
  schools_per_city_out : List (String × ℕ)
  required_schools_out : List (String × ℤ)
  additional_schools_needed_out : List (String × ℚ)

/-- Lines 72-101: `analyze_school_distribution`. The reprojection
`cities_gdf.to_crs(...)` of line 80 is performed by the geometry library and
is a parameter; it rebinds the local `cities_gdf` only. All column writes of
lines 88-94 land in the locally loaded frames, which the embedding folds into
the result maps; the two `Layer` arguments are only ever read, and are
returned alongside the result so that the frame condition is statable. -/
def analyze_school_distribution (to_crs : Frame District → ℕ → Frame District)
    (school_layer : Layer Pt) (cities_layer : Layer District) :
    AnalysisResult × Layer Pt × Layer District :=
  let schools_gdf := layer_to_geopandas school_layer
  let cities_gdf0 := layer_to_geopandas cities_layer
  let cities_gdf :=
    if cities_gdf0.crs = schools_gdf.crs then cities_gdf0
    else to_crs cities_gdf0 schools_gdf.crs
  (⟨schools_gdf.rows.length,
    schools_per_city schools_gdf.rows cities_gdf.rows,
    required_schools_map cities_gdf.rows,
    additional_schools_needed_map schools_gdf.rows cities_gdf.rows⟩,
   school_layer, cities_layer)

/-! ### Concrete inputs used by the counterexamples and failing-input theorems -/

/-- A single facility at (2,3): its bounding rectangle is degenerate. -/
def single_facility : List Pt := [(2, 3)]

/-- Two facilities at (1,1) and (3,3): bounds array (1,1,3,3), whose numpy
product is 9 while the bounding rectangle's area is 4. -/
def two_facilities : List Pt := [(1, 1), (3, 3)]

/-- One facility that lies inside both of two overlapping districts. -/
def ovl_schools : List Pt := [(0, 0)]

/-- Two districts whose polygons both contain every point (overlapping
districts). -/
def ovl_districts : List District :=
  [⟨"A", 0, fun _ => true⟩, ⟨"B", 0, fun _ => true⟩]

/-- One facility assigned to district A. -/
def zd_schools : List Pt := [(0, 0)]

/-- District A containing everything and district B containing nothing, so B
has zero assigned facilities. -/
def zd_districts : List District :=
  [⟨"A", 1000, fun _ => true⟩, ⟨"B", 1000, fun _ => false⟩]

/-- A witness input: one facility inside the single district A. -/
def w_schools : List Pt := [(0, 0)]

/-- A witness input: the single district A containing everything. -/
def w_districts : List District := [⟨"A", 3000, fun _ => true⟩]

/-! ### Helper lemmas on dictionaries and the join -/

theorem keys_map_update {α : Type} (d : List (String × α)) (k : String) (v : α) :
    keys (d.map (fun q => if q.1 = k then (k, v) else q)) = keys d := by
  simp only [keys, List.map_map]
  apply List.map_congr_left
  intro q _
  by_cases h : q.1 = k <;> simp [h]

theorem mem_keys_dictInsert {α : Type} (d : List (String × α)) (k : String)
    (v : α) (x : String) :
    x ∈ keys (dictInsert d k v) ↔ x ∈ keys d ∨ x = k := by
  simp only [dictInsert]
  split
  · next h =>
    have hk : k ∈ keys d := by simpa using h
    rw [keys_map_update]
    constructor
    · exact Or.inl
    · rintro (hx | rfl)
      · exact hx
      · exact hk
  · simp [keys]

theorem nodup_keys_dictInsert {α : Type} (d : List (String × α)) (k : String)
    (v : α) (h : (keys d).Nodup) : (keys (dictInsert d k v)).Nodup := by
  simp only [dictInsert]
  split
  · rwa [keys_map_update]
  · next hc =>
    have hk : k ∉ keys d := by simpa using hc
    have hgoal : keys (d ++ [(k, v)]) = keys d ++ [k] := by simp [keys]
    rw [hgoal]
    refine List.Nodup.append h (List.nodup_singleton k) ?_
    intro a ha hb
    rw [List.mem_singleton] at hb
    exact hk (hb ▸ ha)

theorem mem_keys_to_dict_aux {α : Type} (l : List (String × α)) :
    ∀ (d : List (String × α)) (x : String),
      x ∈ keys (l.foldl (fun d p => dictInsert d p.1 p.2) d) ↔
        x ∈ keys d ∨ x ∈ keys l := by
  induction l with
  | nil => intro d x; simp [keys]
  | cons p rest ih =>
    intro d x
    simp only [List.foldl_cons]
    rw [ih, mem_keys_dictInsert]
    simp only [keys, List.map_cons, List.mem_cons]
    tauto

theorem mem_keys_to_dict {α : Type} (l : List (String × α)) (x : String) :
    x ∈ keys (to_dict l) ↔ x ∈ keys l := by
  unfold to_dict
  rw [mem_keys_to_dict_aux]
  constructor
  · rintro (hx | hx)
    · simp [keys] at hx
    · exact hx
  · exact Or.inr

theorem nodup_keys_to_dict_aux {α : Type} (l : List (String × α)) :
    ∀ d : List (String × α),
      (keys d).Nodup →
      (keys (l.foldl (fun d p => dictInsert d p.1 p.2) d)).Nodup := by
  induction l with
  | nil => intro d h; exact h
  | cons p rest ih =>
    intro d h
    simp only [List.foldl_cons]
    exact ih _ (nodup_keys_dictInsert _ _ _ h)

theorem nodup_keys_to_dict {α : Type} (l : List (String × α)) :
    (keys (to_dict l)).Nodup := by
  unfold to_dict
  exact nodup_keys_to_dict_aux l [] List.nodup_nil

theorem no_hits_iff (districts : List District) (s : Pt) :
    (districts.filter (fun d => d.contains s)).isEmpty
      = districts.all (fun d => ! d.contains s) := by
  induction districts with
  | nil => rfl
  | cons d rest ih =>
    by_cases h : d.contains s <;> simp [List.filter_cons, h, ih]

theorem sum_schools_per_city (schools : List Pt) (districts : List District) :
    ((schools_per_city schools districts).map Prod.snd).sum
      = (joined_names schools districts).length := by
  simp only [schools_per_city, List.map_map, Function.comp_def, group_size]
  exact List.sum_map_count_dedup_eq_length _

theorem filterMap_names (s : Pt) (hits : List District) :
    List.filterMap (fun r : Pt × Option String => r.2)
      (hits.map (fun d => (s, some d.name))) = hits.map District.name := by
  induction hits with
  | nil => rfl
  | cons d rest ih => simp [List.filterMap_cons, ih]

theorem length_joined_add_unassigned (districts : List District) :
    ∀ schools : List Pt,
      (∀ s ∈ schools, (districts.filter (fun d => d.contains s)).length ≤ 1) →
      (joined_names schools districts).length
        + unassigned_count schools districts = schools.length := by
  intro schools
  induction schools with
  | nil => intro _; rfl
  | cons s rest ih =>
    intro h
    have hs := h s (List.mem_cons_self s rest)
    have hrest := ih (fun a ha => h a (List.mem_cons_of_mem _ ha))
    simp only [joined_names, sjoin_within, List.flatMap_cons,
      List.filterMap_append, List.length_append, unassigned_count,
      List.filter_cons, List.length_cons]
    simp only [joined_names, sjoin_within, unassigned_count] at hrest
    by_cases hemp : (districts.filter (fun d => d.contains s)).isEmpty
    · have hq : districts.all (fun d => ! d.contains s) = true := by
        rw [← no_hits_iff]; exact hemp
      rw [if_pos hemp, if_pos hq]
      have hnil : List.filterMap (fun r : Pt × Option String => r.2)
          ([(s, none)] : List (Pt × Option String)) = [] := rfl
      rw [hnil]
      simp only [List.length_nil, List.length_cons]
      omega
    · have hq : districts.all (fun d => ! d.contains s) = false := by
        rw [← no_hits_iff]; simpa using hemp
      have hone : (districts.filter (fun d => d.contains s)).length = 1 := by
        have hne : (districts.filter (fun d => d.contains s)).length ≠ 0 := by
          simpa [List.isEmpty_iff, List.length_eq_zero] using hemp
        omega
      rw [if_neg hemp, if_neg (by simp [hq]), filterMap_names, List.length_map, hone]
      omega

/-! ### Claim theorems -/

/-- C4: for every population `p`, the computed requirement is the ceiling of
`p / 2000`: it is the least integer `n` with `p ≤ n * 2000`, so any fractional
remainder rounds the requirement up; population 2001 yields 2 and population 1
yields 1. -/
theorem required_schools_is_ceiling :
    (∀ p : ℚ,
      p ≤ (required_schools p : ℚ) * max_students_per_school ∧
      ∀ n : ℤ, p ≤ (n : ℚ) * max_students_per_school → required_schools p ≤ n) ∧
    required_schools 2001 = 2 ∧ required_schools 1 = 1 := by
  have hpos : (0 : ℚ) < max_students_per_school := by
    norm_num [max_students_per_school]
  refine ⟨fun p => ⟨?_, fun n hn => ?_⟩, ?_, ?_⟩
  · have := Int.le_ceil (p / max_students_per_school)
    rw [div_le_iff₀ hpos] at this
    simpa [required_schools] using this
  · have : p / max_students_per_school ≤ (n : ℚ) := by
      rw [div_le_iff₀ hpos]
      simpa using hn
    simpa [required_schools] using Int.ceil_le.mpr this
  · norm_num [required_schools, max_students_per_school, Int.ceil_eq_iff]
  · norm_num [required_schools, max_students_per_school, Int.ceil_eq_iff]

/-- C8: the deficit is the difference of required and current facility counts
clamped at zero, and is therefore never negative, also when the current count
exceeds the requirement. -/
theorem additional_schools_needed_clamped :
    ∀ required current : ℚ,
      additional_schools_needed required current = max (required - current) 0 ∧
      0 ≤ additional_schools_needed required current := by
  intro required current
  constructor
  · rfl
  · exact le_max_right _ _

/-- C7: the key sets of the required-facilities map and of the
additional-facilities-needed map are exactly the district names of the input
collection, each key occurring exactly once, independently of populations and
of facility placement. -/
theorem output_maps_keyed_by_input_districts (schools : List Pt)
    (districts : List District) :
    (keys (required_schools_map districts)).Nodup ∧
    (keys (additional_schools_needed_map schools districts)).Nodup ∧
    (∀ n, n ∈ keys (required_schools_map districts) ↔
      n ∈ districts.map District.name) ∧
    (∀ n, n ∈ keys (additional_schools_needed_map schools districts) ↔
      n ∈ districts.map District.name) := by
  refine ⟨nodup_keys_to_dict _, nodup_keys_to_dict _, fun n => ?_, fun n => ?_⟩
  · rw [required_schools_map, mem_keys_to_dict]
    simp [keys, List.map_map, Function.comp_def]
  · rw [additional_schools_needed_map, mem_keys_to_dict]
    simp [keys, List.map_map, Function.comp_def]

/-- C5 counterexample: a facility lying inside two overlapping district
polygons produces one join row per containing polygon, so the per-district
counts plus the unassigned count total 2 for a single facility — the sum
invariant of the claim fails as stated. -/
theorem counts_sum_fails_on_overlap :
    ¬ (((schools_per_city ovl_schools ovl_districts).map Prod.snd).sum
        + unassigned_count ovl_schools ovl_districts
        = ovl_schools.length) := by decide

/-- C5 amended: a facility inside exactly one polygon is assigned to it, a
facility outside all polygons is unassigned, and — provided no facility lies
inside more than one polygon — the per-district counts plus the unassigned
count sum to the total facility count. -/
theorem assignment_and_counts_sum (schools : List Pt) (districts : List District)
    (h : ∀ s ∈ schools, (districts.filter (fun d => d.contains s)).length ≤ 1) :
    (∀ s ∈ schools, ∀ d : District,
      districts.filter (fun x => x.contains s) = [d] →
      (s, some d.name) ∈ sjoin_within schools districts) ∧
    (∀ s ∈ schools, (∀ d ∈ districts, d.contains s = false) →
      (s, (none : Option String)) ∈ sjoin_within schools districts) ∧
    ((schools_per_city schools districts).map Prod.snd).sum
      + unassigned_count schools districts = schools.length := by
  refine ⟨fun s hsm d hd => ?_, fun s hsm hout => ?_, ?_⟩
  · rw [sjoin_within, List.mem_flatMap]
    refine ⟨s, hsm, ?_⟩
    rw [hd]
    simp
  · rw [sjoin_within, List.mem_flatMap]
    refine ⟨s, hsm, ?_⟩
    have hnil : districts.filter (fun x => x.contains s) = [] :=
      List.filter_eq_nil_iff.mpr (fun d hdm => by simp [hout d hdm])
    rw [hnil]
    simp
  · rw [sum_schools_per_city]
    exact length_joined_add_unassigned districts schools h

/-- C5 witness: the amended statement applied to one facility inside the
single district A. -/
theorem assignment_and_counts_sum_witness :
    (∀ s ∈ w_schools, (w_districts.filter (fun d => d.contains s)).length ≤ 1) ∧
    (((schools_per_city w_schools w_districts).map Prod.snd).sum
      + unassigned_count w_schools w_districts = w_schools.length) :=
  ⟨by decide, (assignment_and_counts_sum w_schools w_districts (by decide)).2.2⟩

/-- C6 counterexample: district B is in the input collection but has no
assigned facility, and the reported per-district facility-count mapping
(`schools_per_city`, built from the join grouping alone) has no entry for B at
all — B is omitted instead of appearing with count 0. -/
theorem schools_per_city_omits_empty_district :
    "B" ∈ zd_districts.map District.name ∧
    "B" ∉ keys (schools_per_city zd_schools zd_districts) := by decide

/-- C6 amended: the per-district facility-count mapping contains exactly the
districts with at least one assigned facility, with the correct positive
count; a district absent from the mapping has join count 0, and the
current-schools figure used by the deficit computation fills such districts
with 0. -/
theorem schools_per_city_exactly_nonzero (schools : List Pt)
    (districts : List District) :
    (∀ p ∈ schools_per_city schools districts,
      0 < p.2 ∧ p.2 = group_size schools districts p.1) ∧
    (∀ n, n ∈ keys (schools_per_city schools districts) ↔
      0 < group_size schools districts n) ∧
    (∀ n, n ∉ keys (schools_per_city schools districts) →
      current_schools schools districts n = 0) := by
  have hkeys : ∀ n, n ∈ keys (schools_per_city schools districts) ↔
      0 < group_size schools districts n := by
    intro n
    rw [keys, schools_per_city, List.map_map]
    have : (Prod.fst ∘ fun n => (n, group_size schools districts n))
        = fun n : String => n := rfl
    rw [this, List.map_id']
    rw [List.mem_dedup, group_size]
    exact (List.count_pos_iff).symm
  refine ⟨fun p hp => ?_, hkeys, fun n hn => ?_⟩
  · rw [schools_per_city, List.mem_map] at hp
    obtain ⟨n, hn, rfl⟩ := hp
    refine ⟨?_, rfl⟩
    rw [group_size]
    exact List.count_pos_iff.mpr (List.mem_dedup.mp hn)
  · rw [hkeys] at hn
    rw [current_schools]
    have : group_size schools districts n = 0 := by omega
    rw [this]
    norm_num

/-- C1: at the failing inputs, the code's percentage denominator
(`total_bounds.prod()`, the product minx·miny·maxx·maxy) is not the bounding
rectangle's area: for the single facility at (2,3) the rectangle is degenerate
(area 0) yet the code divides by 36 and returns an ordinary finite percentage
instead of the prescribed sentinel; for facilities (1,1) and (3,3) the code
divides by 9 where the rectangle's area is 4. -/
theorem coverage_percentage_wrong_denominator :
    bounding_rectangle_area single_facility = 0 ∧
    bounds_prod (total_bounds single_facility) = 36 ∧
    coverage_percentage 1 single_facility = 100 / 36 ∧
    spec_coverage_percentage 1 single_facility = none ∧
    bounds_prod (total_bounds two_facilities) = 9 ∧
    bounding_rectangle_area two_facilities = 4 ∧
    coverage_percentage 9 two_facilities = 100 ∧
    spec_coverage_percentage 9 two_facilities = some 225 := by
  have hb1 : total_bounds single_facility = (2, 3, 2, 3) := by
    simp [total_bounds, single_facility, col_min, col_max]
  have hb2 : total_bounds two_facilities = (1, 1, 3, 3) := by
    simp [total_bounds, two_facilities, col_min, col_max]
  refine ⟨?_, ?_, ?_, ?_, ?_, ?_, ?_, ?_⟩
  · norm_num [bounding_rectangle_area, hb1]
  · norm_num [bounds_prod, hb1]
  · norm_num [coverage_percentage, bounds_prod, hb1]
  · norm_num [spec_coverage_percentage, bounding_rectangle_area, hb1]
  · norm_num [bounds_prod, hb2]
  · norm_num [bounding_rectangle_area, hb2]
  · norm_num [coverage_percentage, bounds_prod, hb2]
  · norm_num [spec_coverage_percentage, bounding_rectangle_area, hb2]

/-- C2: for the four corners of the side-10 square every ridge of the
proximity diagram is unbounded (every `ridge_vertices` entry holds `-1`), yet
the code's bound check on `ridge_points` indices filters nothing and all four
ridges enter the distance list; excluding the unbounded ridges, as the claim
states, would leave the list empty. -/
theorem unbounded_ridges_not_excluded :
    square_vor.ridge_vertices.all (fun l => l.contains (-1)) = true ∧
    (ridge_lengths square_coords square_vor).length = 4 ∧
    finite_ridge_lengths square_coords square_vor = [] := by
  refine ⟨by decide, ?_, ?_⟩
  · simp only [ridge_lengths, List.length_map]
    decide
  · rfl

/-- C3: no execution path of `calculate_nearest_neighbor_distance` produces a
typed InsufficientDataError — the module defines no such error; with only
three points the diagram library itself raises and that untyped failure
propagates unchanged. -/
theorem no_insufficient_data_error :
    (∀ (coords : List Pt) (vor : Option Voronoi),
      calculate_nearest_neighbor_distance coords vor
        ≠ ProxResult.insufficient_data_error) ∧
    calculate_nearest_neighbor_distance [(0, 0), (1, 0), (0, 1)] none
      = ProxResult.library_error := by
  constructor
  · intro coords vor
    cases vor with
    | none => simp [calculate_nearest_neighbor_distance]
    | some v =>
      simp only [calculate_nearest_neighbor_distance]
      split <;> simp
  · rfl

theorem sqrt_twenty_five : Real.sqrt 25 = 5 := by
  rw [show (25 : ℝ) = 5 ^ 2 by norm_num]
  exact Real.sqrt_sq (by norm_num)

theorem dispersion_example_eval :
    calculate_spatial_dispersion [((0 : ℝ), 0), (10, 0)] = ((5, 0), 5, 0) := by
  have hc : centroid_of_centroids [((0 : ℝ), 0), (10, 0)] = (5, 0) := by
    norm_num [centroid_of_centroids]
  have hd : distances_from_center [((0 : ℝ), 0), (10, 0)] = [5, 5] := by
    simp only [distances_from_center, hc, List.map_cons, List.map_nil, rdist]
    norm_num [sqrt_twenty_five]
  have hm : list_mean [(5 : ℝ), 5] = 5 := by
    norm_num [list_mean]
  have hs : list_std [(5 : ℝ), 5] = 0 := by
    simp only [list_std, hm, List.map_cons, List.map_nil]
    norm_num [list_mean, Real.sqrt_zero]
  simp only [calculate_spatial_dispersion, hc, hd, hm, hs]

/-- C9 counterexample: for facilities at (0,0) and (10,0) both distances to
the centre (5,0) equal 5, so the population standard deviation the code
reports is 0 — not 5, as the claim's example asserts. -/
theorem dispersion_std_of_example_is_zero :
    (calculate_spatial_dispersion [((0 : ℝ), 0), (10, 0)]).2.2 = 0 ∧
    (0 : ℝ) ≠ 5 := by
  constructor
  · rw [dispersion_example_eval]
  · norm_num

/-- C9 amended: the centre is the arithmetic-mean coordinate of the facility
centroids and the estimator reports the mean and the population standard
deviation of the distances to it; a single facility yields standard deviation
0 (and mean 0), and facilities (0,0) and (10,0) yield centre (5,0), mean
distance 5 and standard deviation 0. -/
theorem dispersion_centre_mean_std :
    (∀ p : ℝ × ℝ, calculate_spatial_dispersion [p] = (p, 0, 0)) ∧
    calculate_spatial_dispersion [((0 : ℝ), 0), (10, 0)] = ((5, 0), 5, 0) := by
  constructor
  · intro p
    have hc : centroid_of_centroids [p] = p := by
      simp [centroid_of_centroids]
    have hd : distances_from_center [p] = [0] := by
      simp [distances_from_center, hc, rdist, sub_self, Real.sqrt_zero]
    have hm : list_mean [(0 : ℝ)] = 0 := by
      simp [list_mean]
    have hs : list_std [(0 : ℝ)] = 0 := by
      simp [list_std, hm, list_mean, Real.sqrt_zero]
    simp only [calculate_spatial_dispersion, hc, hd, hm, hs]
  · exact dispersion_example_eval

/-- C10: `layer_to_geopandas` re-reads each layer's source into a fresh local
frame and every derived-column write of the analysis lands in those local
frames, so the analysis returns the caller's two layers exactly as supplied,
and rerunning it on them produces the identical result record. -/
theorem analysis_leaves_layers_unchanged
    (to_crs : Frame District → ℕ → Frame District)
    (school_layer : Layer Pt) (cities_layer : Layer District) :
    (analyze_school_distribution to_crs school_layer cities_layer).2
      = (school_layer, cities_layer) ∧
    (analyze_school_distribution to_crs school_layer cities_layer).1
      = (analyze_school_distribution to_crs
          (analyze_school_distribution to_crs school_layer cities_layer).2.1
          (analyze_school_distribution to_crs school_layer cities_layer).2.2).1 :=
  ⟨rfl, rfl⟩

end EduAccess
